import Mathlib

/-!
# OpenKMS schedule-conflict detection engine: a shallow embedding

This file embeds the conflict-detection service of the OpenKMS backend
(`app/services/conflict.py`, together with the store queries it calls in
`app/crud/registration.py` and `app/crud/base.py`) and settles the spec's
claims about it.

Modelling conventions:
* `datetime` values are integers counting **minutes**; a calendar date is the
  floor of a timestamp by 1440 (minutes per day), matching `.date()`; a clock
  time (`strftime "%H:%M"`) is the timestamp modulo 1440.
* travel times, stored in the source as floating-point hours (all whole
  numbers: 4.0, 6.0, 8.0, 0.0), are scaled to integer minutes, which is exact
  for every value in the table; `timedelta(hours=h)` becomes `60 * h` minutes.
* the database session is a read-only snapshot `DB` holding the trainings and
  registrations tables; SQLAlchemy queries become list operations on it.
* raised Python exceptions are values: fallible functions return
  `Except PyError`.  Crucially, both entry points of the service open with
  `await training_crud.get(db, training_id=training_id)`
  (`app/services/conflict.py` lines 35 and 253), while the only `get` in
  scope is `CRUDBase.get(self, db, id)` (`app/crud/base.py` line 23, no
  override in `CRUDTraining`): Python rejects the keyword `training_id` at
  argument binding and raises `TypeError` before any query runs.  The
  embedding models that binding step explicitly (`bind_kwarg` against the
  real parameter list) rather than assuming the lookup succeeds.
* the engine's store accesses are additionally recorded as a list of
  `SEvent` values (which fetches were issued, and which registration each
  rule's loop visited), so that claims about fetch counts and about every
  commitment being examined can be stated.
-/

/-- Severity of a conflict finding (`"error"` / `"warning"` in the dicts). -/
inductive Severity where
  | error
  | warning
deriving DecidableEq, Repr

/-- One entry of the `existing_trainings` list of a same-day finding:
id, title, and clock times rendered by `strftime("%H:%M")`. -/
structure SameDayEntry where
  id : Nat
  title : String
  start_time : Int
  end_time : Int
deriving DecidableEq, Repr

/-- A conflict/validation finding.  Each constructor mirrors one of the dict
shapes appended to `conflicts` / `validation_issues` in
`app/services/conflict.py`, carrying the payload fields of that dict
(the fixed `message` strings are omitted; the same-day count interpolated
into its message is kept as the `count` field). -/
inductive Finding where
  | training_not_found
  | duplicate_registration (id : Nat) (title : String) (start_date : Int)
  | schedule_overlap (id : Nat) (title : String) (start_date end_date : Int)
      (location : String)
  | travel_time_conflict (location1 location2 : String) (travel_time : Int)
      (id : Nat) (title : String) (start_date end_date : Int) (location : String)
  | same_day_multiple_trainings (count : Nat) (training_date : Int)
      (existing_trainings : List SameDayEntry)
  | training_full
deriving DecidableEq, Repr

/-- The `severity` field of each finding dict. -/
def Finding.severity : Finding → Severity
  | .training_not_found => .error
  | .duplicate_registration _ _ _ => .error
  | .schedule_overlap _ _ _ _ _ => .error
  | .travel_time_conflict _ _ _ _ _ _ _ _ => .warning
  | .same_day_multiple_trainings _ _ _ => .warning
  | .training_full => .error

/-- The `type` field of each finding dict (the wire strings of the report). -/
def Finding.ctype : Finding → String
  | .training_not_found => "training_not_found"
  | .duplicate_registration _ _ _ => "duplicate_registration"
  | .schedule_overlap _ _ _ _ _ => "schedule_overlap"
  | .travel_time_conflict _ _ _ _ _ _ _ _ => "travel_time_conflict"
  | .same_day_multiple_trainings _ _ _ => "same_day_multiple_trainings"
  | .training_full => "training_full"

/-- The id of the conflicting commitment's training referenced by an overlap
or travel finding (`conflicting_training["id"]` in the dicts); `none` for the
other kinds, which reference no other commitment. -/
def Finding.ref_id : Finding → Option Nat
  | .schedule_overlap i _ _ _ _ => some i
  | .travel_time_conflict _ _ _ i _ _ _ _ => some i
  | _ => none

/-- A raised Python exception, as a value: the conflict service's entry
points raise `TypeError` at their opening call (see
`training_crud_get_kw`), and `check_capacity` can raise `ValueError`. -/
inductive PyError where
  | type_error (message : String)
  | value_error (message : String)
deriving DecidableEq, Repr

deriving instance DecidableEq for Except

/-- `RegistrationStatus` enum (`app/models/registration.py`). -/
inductive RegistrationStatus where
  | pending
  | confirmed
  | waitlisted
  | cancelled
deriving DecidableEq, Repr

/-- The columns of the `Training` model read by the conflict service and the
capacity check (`app/models/training.py`).  Times are minutes, see the file
header. -/
structure Training where
  id : Nat
  title : String
  location : String
  start_date : Int
  end_date : Int
  max_participants : Nat
  current_participants : Nat
  prerequisites : Option String
deriving DecidableEq, Repr

/-- The columns of the `Registration` model read by the queries and by the
conflict service (`app/models/registration.py`).  The `training` relationship
(loaded by `selectinload`) is carried directly as an optional `Training`,
which lets the defensively-handled absent case arise. -/
structure Registration where
  user_id : Nat
  training_id : Nat
  status : RegistrationStatus
  is_active : Bool
  training : Option Training
deriving DecidableEq, Repr

/-- A read-only snapshot of the two tables the conflict service queries. -/
structure DB where
  trainings : List Training
  registrations : List Registration

/-- The query body of `CRUDBase.get` specialised to `Training`
(`app/crud/base.py`): `SELECT ... WHERE Training.id == id`,
`scalar_one_or_none()`.  Primary-key ids are unique, so the first match
models the single row.  This is what the method computes once it is actually
entered — `check_capacity` reaches it with a correct positional call. -/
def training_get (db : DB) (training_id : Nat) : Option Training :=
  db.trainings.find? (fun t => t.id == training_id)

/-- The named parameters of `CRUDBase.get` after `self`:
`async def get(self, db, id)` (`app/crud/base.py` line 23).  `CRUDTraining`
defines no `get` override, so this is the signature every
`training_crud.get(...)` call binds against. -/
def crud_base_get_params : List String := ["db", "id"]

/-- The `TypeError` Python raises when a call passes an unknown keyword. -/
def kw_type_error (kw : String) : PyError :=
  .type_error ("get() got an unexpected keyword argument " ++ kw)

/-- Python argument binding for a call of shape `obj.get(db, kw=value)`: the
first argument binds positionally; the keyword must name one of the
remaining parameters, otherwise the call raises `TypeError` before the
method body runs. -/
def bind_kwarg (params : List String) (kw : String) : Except PyError Unit :=
  if (params.drop 1).contains kw then Except.ok ()
  else Except.error (kw_type_error kw)

/-- The call `await training_crud.get(db, <kw>=training_id)` as written at
`app/services/conflict.py` lines 35 and 253 (there with
`kw = "training_id"`): bind the keyword against `CRUDBase.get`'s parameter
list; only if binding succeeds does the method body run its by-id query.
`training_id` is not among `CRUDBase.get`'s parameters, so those call sites
raise on every invocation. -/
def training_crud_get_kw (db : DB) (kw : String) (training_id : Nat) :
    Except PyError (Option Training) :=
  match bind_kwarg crud_base_get_params kw with
  | .error e => .error e
  | .ok _ => .ok (training_get db training_id)

/-- `CRUDRegistration.get_confirmed_registrations_for_user`
(`app/crud/registration.py` lines 132-154): filter by user id, CONFIRMED
status and `is_active`, ordered by registration date (modelled by table
order), then `offset(skip).limit(limit)` with the defaults `skip=0`,
`limit=100` that every caller in the conflict service uses.  (The conflict
service calls it as `(db, user_id=user_id)`; `user_id` is a real parameter,
so this call binds fine.) -/
def get_confirmed_registrations_for_user (db : DB) (user_id : Nat)
    (skip : Nat := 0) (limit : Nat := 100) : List Registration :=
  ((db.registrations.filter (fun r =>
      r.user_id == user_id && r.status == RegistrationStatus.confirmed
        && r.is_active)).drop skip).take limit

/-- The user's full confirmed-commitment set, with no pagination window: the
rows `get_confirmed_registrations_for_user` selects before
`offset`/`limit` are applied.  Used to compare the fetch window with the
entire set the spec speaks about. -/
def all_confirmed_registrations_for_user (db : DB) (user_id : Nat) :
    List Registration :=
  db.registrations.filter (fun r =>
    r.user_id == user_id && r.status == RegistrationStatus.confirmed
      && r.is_active)

/-- `CRUDRegistration.count_registrations_by_training`: count rows for a
training, optionally restricted to one status. -/
def count_registrations_by_training (db : DB) (training_id : Nat)
    (status : Option RegistrationStatus) : Nat :=
  (db.registrations.filter (fun r =>
    r.training_id == training_id &&
      match status with
      | some s => r.status == s
      | none => true)).length

/-- The dict returned by `CRUDRegistration.check_capacity`. -/
structure CapacityInfo where
  max_participants : Nat
  current_participants : Nat
  confirmed_registrations : Nat
  active_registrations : Nat
  available_spots : Int
  is_full : Bool
deriving DecidableEq, Repr

/-- `CRUDRegistration.check_capacity` (`app/crud/registration.py` lines
192-218).  Its training lookup is the correct positional call
`training.get(db, training_id)` (line 200), so it reaches `training_get`;
`none` models the `ValueError` raised when the training does not exist. -/
def check_capacity (db : DB) (training_id : Nat) : Option CapacityInfo :=
  match training_get db training_id with
  | none => none
  | some training =>
    let confirmed_count :=
      count_registrations_by_training db training_id
        (some RegistrationStatus.confirmed)
    let active_count := count_registrations_by_training db training_id none
    some
      { max_participants := training.max_participants
        current_participants := training.current_participants
        confirmed_registrations := confirmed_count
        active_registrations := active_count
        available_spots := (training.max_participants : Int) - confirmed_count
        is_full := decide (training.max_participants ≤ confirmed_count) }

/-- `datetime.date()`: the calendar-day index of a timestamp in minutes. -/
def dateOf (t : Int) : Int := t.fdiv 1440

/-- `strftime("%H:%M")`: the clock time (minute of the day) of a timestamp. -/
def clockOf (t : Int) : Int := t.emod 1440

/-- Which of the three per-commitment passes of `detect_schedule_conflicts`
visited a registration: the duplicate/overlap loop (lines 49-85), the
location/travel loop (`_check_location_conflicts`), or the same-day scan
(`_check_same_day_conflicts`). -/
inductive RuleId where
  | duplicate_overlap
  | location
  | same_day
deriving DecidableEq, Repr

/-- Store/inspection events recorded while the service runs: a fetch of a
training by id, a fetch of a user's confirmed registrations, or one rule's
loop visiting one registration of the fetched list. -/
inductive SEvent where
  | get_training (training_id : Nat)
  | get_confirmed_regs (user_id : Nat)
  | visit (rule : RuleId) (reg : Registration)
deriving DecidableEq, Repr

/-- Is this event a candidate-training fetch? -/
def SEvent.is_training_fetch : SEvent → Bool
  | .get_training _ => true
  | _ => false

/-- Is this event a confirmed-registrations fetch? -/
def SEvent.is_reg_fetch : SEvent → Bool
  | .get_confirmed_regs _ => true
  | _ => false

/-- The registration a given rule visited in this event, if any. -/
def SEvent.visited (rule : RuleId) : SEvent → Option Registration
  | .visit r reg => if r = rule then some reg else none
  | _ => none

/-- `ConflictDetectionService._check_time_overlap` (lines 95-113): widen the
candidate interval by the 30-minute buffer on both sides and test strict
overlap. -/
def check_time_overlap (start1 end1 start2 end2 : Int) : Bool :=
  let buffer_minutes : Int := 30
  let adjusted_start1 := start1 - buffer_minutes
  let adjusted_end1 := end1 + buffer_minutes
  decide (adjusted_start1 < end2) && decide (adjusted_end1 > start2)

/-- The `office_travel_times` dict of `_check_location_conflicts`
(lines 128-140), hours scaled to minutes. -/
def office_travel_times : List ((String × String) × Int) :=
  [(("NYC", "Boston"), 240),
   (("NYC", "Dallas"), 360),
   (("Boston", "Dallas"), 480),
   (("Boston", "NYC"), 240),
   (("Dallas", "NYC"), 360),
   (("Dallas", "Boston"), 480),
   (("NYC", "NYC"), 0),
   (("Boston", "Boston"), 0),
   (("Dallas", "Dallas"), 0)]

/-- The travel-time lookup of lines 149-152:
`office_travel_times.get((l1, l2), office_travel_times.get((l2, l1), 0.0))`. -/
def lookup_travel_time (location1 location2 : String) : Int :=
  match office_travel_times.lookup (location1, location2) with
  | some t => t
  | none => (office_travel_times.lookup (location2, location1)).getD 0

/-- `ConflictDetectionService._check_insufficient_travel_time`
(lines 177-202): same start date required, then compare the gap (in the
direction in which one training ends before the other starts) with the
travel time plus a one-hour buffer. -/
def check_insufficient_travel_time (start1 end1 start2 end2 : Int)
    (travel_time : Int) : Bool :=
  let minimum_gap := travel_time + 60
  if dateOf start1 ≠ dateOf start2 then false
  else if end1 < start2 then decide (start2 - end1 < minimum_gap)
  else if end2 < start1 then decide (start1 - end2 < minimum_gap)
  else false

/-- The body of the duplicate/overlap loop of `detect_schedule_conflicts`
(lines 49-85): skip a registration with no loaded training; report a
duplicate (and `continue`) when the training ids match; otherwise report a
schedule overlap when the buffered intervals overlap. -/
def overlap_body (training_id : Nat) (target_training : Training)
    (registration : Registration) : Option Finding :=
  match registration.training with
  | none => none
  | some t =>
    if t.id = training_id then
      some (.duplicate_registration t.id t.title t.start_date)
    else if check_time_overlap target_training.start_date
        target_training.end_date t.start_date t.end_date then
      some (.schedule_overlap t.id t.title t.start_date t.end_date t.location)
    else none

/-- The duplicate/overlap loop over the fetched registrations; each iteration
appends at most one finding, so the loop is the `filterMap` of its body. -/
def overlap_loop (training_id : Nat) (target_training : Training)
    (regs : List Registration) : List Finding :=
  regs.filterMap (overlap_body training_id target_training)

/-- The body of the `_check_location_conflicts` loop (lines 142-175): skip a
registration with no loaded training; look the travel time up symmetrically;
when it is positive and insufficient, report a travel-time conflict. -/
def location_body (target_training : Training) (registration : Registration) :
    Option Finding :=
  match registration.training with
  | none => none
  | some t =>
    let location1 := target_training.location
    let location2 := t.location
    let travel_time := lookup_travel_time location1 location2
    if 0 < travel_time then
      if check_insufficient_travel_time target_training.start_date
          target_training.end_date t.start_date t.end_date travel_time then
        some (.travel_time_conflict location1 location2 travel_time
          t.id t.title t.start_date t.end_date t.location)
      else none
    else none

/-- The `_check_location_conflicts` loop over the fetched registrations. -/
def location_loop (target_training : Training) (regs : List Registration) :
    List Finding :=
  regs.filterMap (location_body target_training)

/-- The same-day comprehension of `_check_same_day_conflicts` (lines
219-224): registrations with a loaded training that starts on the target's
date and is not the target training itself. -/
def same_day_filter (target_training : Training) (regs : List Registration) :
    List Registration :=
  regs.filter (fun reg =>
    match reg.training with
    | none => false
    | some t =>
      dateOf t.start_date == dateOf target_training.start_date
        && t.id != target_training.id)

/-- The finding-producing tail of `_check_same_day_conflicts` (lines
226-241): one warning when two or more other trainings share the day,
carrying the count and the listed entries. -/
def same_day_loop (target_training : Training) (regs : List Registration) :
    List Finding :=
  let same_day_trainings := same_day_filter target_training regs
  if 2 ≤ same_day_trainings.length then
    [.same_day_multiple_trainings same_day_trainings.length
      (dateOf target_training.start_date)
      (same_day_trainings.filterMap (fun reg =>
        reg.training.map (fun t =>
          { id := t.id, title := t.title, start_time := clockOf t.start_date,
            end_time := clockOf t.end_date })))]
  else []

/-- `ConflictDetectionService._check_location_conflicts` (lines 115-175):
re-fetch the user's confirmed registrations, then append the loop's findings
to the `conflicts` accumulator.  Also returns the store events it causes. -/
def check_location_conflicts (db : DB) (user_id : Nat)
    (target_training : Training) (conflicts : List Finding) :
    List SEvent × List Finding :=
  let user_registrations := get_confirmed_registrations_for_user db user_id
  (SEvent.get_confirmed_regs user_id
      :: user_registrations.map (SEvent.visit .location),
    conflicts ++ location_loop target_training user_registrations)

/-- `ConflictDetectionService._check_same_day_conflicts` (lines 204-241):
re-fetch the user's confirmed registrations, then append the same-day
warning (if any) to the `conflicts` accumulator.  Also returns the store
events it causes. -/
def check_same_day_conflicts (db : DB) (user_id : Nat)
    (target_training : Training) (conflicts : List Finding) :
    List SEvent × List Finding :=
  let user_registrations := get_confirmed_registrations_for_user db user_id
  (SEvent.get_confirmed_regs user_id
      :: user_registrations.map (SEvent.visit .same_day),
    conflicts ++ same_day_loop target_training user_registrations)

/-- `ConflictDetectionService.detect_schedule_conflicts` (lines 15-93),
instrumented.  Its first statement is
`await training_crud.get(db, training_id=training_id)` (line 35), modelled
by `training_crud_get_kw` with the keyword `"training_id"`: the binding
against `CRUDBase.get(self, db, id)` fails, so the function propagates
`TypeError` with no store access.  The remaining branches translate the body
that would run if the call bound (absent training reported as a finding;
otherwise the duplicate/overlap loop, then the location and same-day checks,
which each re-fetch).  Returns the store events alongside the
raised-or-returned report. -/
def detect_schedule_conflicts_run (db : DB) (user_id training_id : Nat) :
    List SEvent × Except PyError (List Finding) :=
  match training_crud_get_kw db "training_id" training_id with
  | .error e => ([], .error e)
  | .ok none =>
    ([.get_training training_id], .ok [.training_not_found])
  | .ok (some target_training) =>
    let user_registrations := get_confirmed_registrations_for_user db user_id
    let conflicts := overlap_loop training_id target_training user_registrations
    let ev1 := SEvent.get_training training_id
      :: SEvent.get_confirmed_regs user_id
      :: user_registrations.map (SEvent.visit .duplicate_overlap)
    let r2 := check_location_conflicts db user_id target_training conflicts
    let r3 := check_same_day_conflicts db user_id target_training r2.2
    (ev1 ++ r2.1 ++ r3.1, .ok r3.2)

/-- The outcome of one `detect_schedule_conflicts` invocation: the returned
report, or the raised exception. -/
def detect_schedule_conflicts (db : DB) (user_id training_id : Nat) :
    Except PyError (List Finding) :=
  (detect_schedule_conflicts_run db user_id training_id).2

/-- The store events caused by one `detect_schedule_conflicts` invocation. -/
def detect_schedule_conflicts_events (db : DB) (user_id training_id : Nat) :
    List SEvent :=
  (detect_schedule_conflicts_run db user_id training_id).1

/-- `ConflictDetectionService.validate_registration_prerequisites` (lines
243-281).  Its first statement is the same misbound call
`await training_crud.get(db, training_id=training_id)` (line 253), so it
too propagates `TypeError`.  The remaining branches translate the body that
would run if the call bound: missing training reported as a finding (the
prerequisite branch of lines 263-266 is a `pass` placeholder and does
nothing), then `training_full` when `check_capacity` says the training is
full; a `ValueError` from `check_capacity` would propagate. -/
def validate_registration_prerequisites (db : DB) (user_id training_id : Nat) :
    Except PyError (List Finding) :=
  match training_crud_get_kw db "training_id" training_id with
  | .error e => .error e
  | .ok none => .ok [.training_not_found]
  | .ok (some _training) =>
    match check_capacity db training_id with
    | none => .error (.value_error "Training not found")
    | some capacity_info =>
      .ok (if capacity_info.is_full then [.training_full] else [])

/-! ## Lemmas -/

/-- The misbound call of `app/services/conflict.py` lines 35 and 253 raises
`TypeError` on every snapshot: `training_id` is not a parameter of
`CRUDBase.get`. -/
theorem training_crud_get_kw_raises (db : DB) (training_id : Nat) :
    training_crud_get_kw db "training_id" training_id
      = .error (kw_type_error "training_id") := rfl

/-- Every invocation of `detect_schedule_conflicts` raises `TypeError` at
its opening statement, with no store access of any kind. -/
theorem detect_run_raises (db : DB) (user_id training_id : Nat) :
    detect_schedule_conflicts_run db user_id training_id
      = ([], .error (kw_type_error "training_id")) := rfl

/-! ## Claims -/

/-- **C1 (counterexample).** On a store holding the candidate training, one
invocation of the conflict check fetches the candidate training zero times
and the commitment set zero times — not exactly once each as claimed — and
returns no report: it raises `TypeError` at the misbound
`training_crud.get(db, training_id=...)` call. -/
theorem C1_counterexample_no_fetch :
    (training_get ⟨[⟨10, "A", "NYC", 600, 660, 30, 0, none⟩], []⟩ 10).isSome
        = true
      ∧ (detect_schedule_conflicts_events
          ⟨[⟨10, "A", "NYC", 600, 660, 30, 0, none⟩], []⟩ 1 10).countP
          SEvent.is_training_fetch = 0
      ∧ ¬ ((detect_schedule_conflicts_events
          ⟨[⟨10, "A", "NYC", 600, 660, 30, 0, none⟩], []⟩ 1 10).countP
          SEvent.is_training_fetch = 1)
      ∧ (detect_schedule_conflicts_events
          ⟨[⟨10, "A", "NYC", 600, 660, 30, 0, none⟩], []⟩ 1 10).countP
          SEvent.is_reg_fetch = 0
      ∧ ¬ ((detect_schedule_conflicts_events
          ⟨[⟨10, "A", "NYC", 600, 660, 30, 0, none⟩], []⟩ 1 10).countP
          SEvent.is_reg_fetch = 1)
      ∧ detect_schedule_conflicts
          ⟨[⟨10, "A", "NYC", 600, 660, 30, 0, none⟩], []⟩ 1 10
        = .error (kw_type_error "training_id") := by decide

/-- **C1 (amended).** Every invocation of the conflict check — whatever the
snapshot, user and training id, and in particular whenever the candidate
training exists in the store — raises `TypeError` at the candidate-training
fetch call (the call passes keyword `training_id`, but `CRUDBase.get`'s
parameter is `id` and `CRUDTraining` has no override): the event trace is
empty, so the candidate training and the commitment set are each fetched
zero times and no rule runs against anything. -/
theorem C1_amended_type_error_no_fetch (db : DB) (user_id training_id : Nat) :
    detect_schedule_conflicts_events db user_id training_id = []
      ∧ (detect_schedule_conflicts_events db user_id training_id).countP
          SEvent.is_training_fetch = 0
      ∧ (detect_schedule_conflicts_events db user_id training_id).countP
          SEvent.is_reg_fetch = 0
      ∧ detect_schedule_conflicts db user_id training_id
        = .error (kw_type_error "training_id") := by
  have h := detect_run_raises db user_id training_id
  refine ⟨?_, ?_, ?_, ?_⟩ <;>
    simp [detect_schedule_conflicts_events, detect_schedule_conflicts, h]

/-- **C2.** The code cannot emit (or withhold) the claimed
`schedule_overlap` finding: at the claim's own boundary scenario — candidate
`[10:00, 11:00]`, confirmed commitment `[11:25, 12:00]`, a 25-minute gap
that satisfies the buffered-overlap condition — the invocation raises
`TypeError` before any fetch, and no report is returned at all. -/
theorem C2_code_bug_type_error :
    detect_schedule_conflicts
        ⟨[⟨1, "A", "NYC", 600, 660, 30, 0, none⟩],
         [⟨1, 2, .confirmed, true,
           some ⟨2, "B", "NYC", 685, 720, 30, 0, none⟩⟩]⟩ 1 1
        = .error (kw_type_error "training_id")
      ∧ check_time_overlap 600 660 685 720 = true := by decide

/-- **C3.** The code cannot emit the claimed `travel_time_conflict` finding:
at the spec's own example — candidate in NYC `[09:00, 12:00]`, commitment in
Boston `[13:00, 17:00]` the same day, travel time 4 h, gap 1 h below the
required 5 h — the invocation raises `TypeError` before any fetch, although
the (unreachable) travel rule's own test holds for the pair. -/
theorem C3_code_bug_type_error :
    detect_schedule_conflicts
        ⟨[⟨1, "A", "NYC", 540, 720, 30, 0, none⟩],
         [⟨1, 2, .confirmed, true,
           some ⟨2, "B", "Boston", 780, 1020, 30, 0, none⟩⟩]⟩ 1 1
        = .error (kw_type_error "training_id")
      ∧ lookup_travel_time "NYC" "Boston" = 240
      ∧ check_insufficient_travel_time 540 720 780 1020 240 = true := by decide

/-- **C4.** The code cannot emit the claimed `same_day_multiple_trainings`
finding: with two other confirmed commitments on the candidate's calendar
date (the claim's threshold), the invocation raises `TypeError` before the
same-day pass can run, although the (unreachable) pass's own selection
counts exactly those two commitments. -/
theorem C4_code_bug_type_error :
    detect_schedule_conflicts
        ⟨[⟨1, "A", "NYC", 600, 660, 30, 0, none⟩],
         [⟨1, 2, .confirmed, true, some ⟨2, "B", "NYC", 100, 160, 30, 0, none⟩⟩,
          ⟨1, 3, .confirmed, true,
            some ⟨3, "C", "NYC", 200, 260, 30, 0, none⟩⟩]⟩ 1 1
        = .error (kw_type_error "training_id")
      ∧ (same_day_filter ⟨1, "A", "NYC", 600, 660, 30, 0, none⟩
          (get_confirmed_registrations_for_user
            ⟨[⟨1, "A", "NYC", 600, 660, 30, 0, none⟩],
             [⟨1, 2, .confirmed, true,
               some ⟨2, "B", "NYC", 100, 160, 30, 0, none⟩⟩,
              ⟨1, 3, .confirmed, true,
               some ⟨3, "C", "NYC", 200, 260, 30, 0, none⟩⟩]⟩ 1)).length
        = 2 := by decide

/-- **C5.** The code cannot return the claimed single `training_not_found`
report: with a training id absent from the store, the invocation raises
`TypeError` at the fetch call itself — before the existence check that
would have produced the finding — so no report is returned. -/
theorem C5_code_bug_type_error :
    training_get ⟨[], []⟩ 7 = none
      ∧ detect_schedule_conflicts ⟨[], []⟩ 1 7
        = .error (kw_type_error "training_id") := by decide

/-- **C6.** The code cannot emit the claimed `duplicate_registration`
finding: with the user holding exactly one confirmed commitment for the
candidate training, the invocation raises `TypeError` before the
duplicate/overlap loop can run, although the (unreachable) loop body would
compute exactly the claimed duplicate finding for that commitment. -/
theorem C6_code_bug_type_error :
    detect_schedule_conflicts
        ⟨[⟨1, "A", "NYC", 600, 660, 30, 0, none⟩],
         [⟨1, 1, .confirmed, true,
           some ⟨1, "A", "NYC", 600, 660, 30, 0, none⟩⟩]⟩ 1 1
        = .error (kw_type_error "training_id")
      ∧ overlap_body 1 ⟨1, "A", "NYC", 600, 660, 30, 0, none⟩
          ⟨1, 1, .confirmed, true, some ⟨1, "A", "NYC", 600, 660, 30, 0, none⟩⟩
        = some (.duplicate_registration 1 "A" 600) := by decide

/-- **C7 (counterexample).** A confirmed commitment of the user — selected
by the store's own predicate — while the candidate training exists in the
store, yet no rule ever visits it: the invocation raises `TypeError` before
the commitment set is fetched, refuting "every confirmed commitment is
examined by every applicable rule". -/
theorem C7_counterexample_nothing_examined :
    ((⟨1, 2, RegistrationStatus.confirmed, true,
        some ⟨2, "B", "NYC", 100, 160, 30, 0, none⟩⟩ : Registration)
        ∈ all_confirmed_registrations_for_user
          ⟨[⟨1, "A", "NYC", 600, 660, 30, 0, none⟩],
           [⟨1, 2, .confirmed, true,
             some ⟨2, "B", "NYC", 100, 160, 30, 0, none⟩⟩]⟩ 1)
      ∧ (training_get
          ⟨[⟨1, "A", "NYC", 600, 660, 30, 0, none⟩],
           [⟨1, 2, .confirmed, true,
             some ⟨2, "B", "NYC", 100, 160, 30, 0, none⟩⟩]⟩ 1).isSome = true
      ∧ SEvent.visit .duplicate_overlap
          ⟨1, 2, .confirmed, true, some ⟨2, "B", "NYC", 100, 160, 30, 0, none⟩⟩
          ∉ detect_schedule_conflicts_events
            ⟨[⟨1, "A", "NYC", 600, 660, 30, 0, none⟩],
             [⟨1, 2, .confirmed, true,
               some ⟨2, "B", "NYC", 100, 160, 30, 0, none⟩⟩]⟩ 1 1
      ∧ SEvent.visit .location
          ⟨1, 2, .confirmed, true, some ⟨2, "B", "NYC", 100, 160, 30, 0, none⟩⟩
          ∉ detect_schedule_conflicts_events
            ⟨[⟨1, "A", "NYC", 600, 660, 30, 0, none⟩],
             [⟨1, 2, .confirmed, true,
               some ⟨2, "B", "NYC", 100, 160, 30, 0, none⟩⟩]⟩ 1 1
      ∧ SEvent.visit .same_day
          ⟨1, 2, .confirmed, true, some ⟨2, "B", "NYC", 100, 160, 30, 0, none⟩⟩
          ∉ detect_schedule_conflicts_events
            ⟨[⟨1, "A", "NYC", 600, 660, 30, 0, none⟩],
             [⟨1, 2, .confirmed, true,
               some ⟨2, "B", "NYC", 100, 160, 30, 0, none⟩⟩]⟩ 1 1 := by decide

/-- **C7 (amended).** No rule of the conflict check ever examines any
confirmed commitment: every invocation raises `TypeError` at the misbound
candidate-training fetch before the commitment set is fetched, so the event
trace contains no visit by any rule of any registration, and no report is
returned. -/
theorem C7_amended_no_commitment_examined (db : DB)
    (user_id training_id : Nat) (rule : RuleId) (reg : Registration) :
    SEvent.visit rule reg
        ∉ detect_schedule_conflicts_events db user_id training_id
      ∧ detect_schedule_conflicts db user_id training_id
        = .error (kw_type_error "training_id") := by
  have h := detect_run_raises db user_id training_id
  constructor
  · simp [detect_schedule_conflicts_events, h]
  · simp [detect_schedule_conflicts, h]

/-- **C8.** Prerequisite validation never returns a finding list, full or
not: its opening statement is the same misbound
`training_crud.get(db, training_id=...)` call (conflict.py line 253), so it
raises `TypeError` on every invocation — here at a training whose confirmed
count (1) has reached its capacity (1), where the claim says a
`training_full` finding is returned. -/
theorem C8_code_bug_type_error :
    validate_registration_prerequisites
        ⟨[⟨1, "A", "NYC", 600, 660, 1, 1, none⟩],
         [⟨2, 1, .confirmed, true, none⟩]⟩ 5 1
        = .error (kw_type_error "training_id")
      ∧ (1 : Nat) ≤ count_registrations_by_training
          ⟨[⟨1, "A", "NYC", 600, 660, 1, 1, none⟩],
           [⟨2, 1, .confirmed, true, none⟩]⟩ 1
          (some RegistrationStatus.confirmed) := by decide

/-- **C9.** There is no returned report whose findings could appear in any
order: the invocation raises `TypeError` before anything is detected, and
the event trace is empty. -/
theorem C9_code_bug_type_error :
    detect_schedule_conflicts
        ⟨[⟨4, "D", "Dallas", 300, 360, 30, 0, none⟩],
         [⟨2, 5, .confirmed, true,
           some ⟨5, "E", "Dallas", 400, 460, 30, 0, none⟩⟩]⟩ 2 4
        = .error (kw_type_error "training_id")
      ∧ detect_schedule_conflicts_events
          ⟨[⟨4, "D", "Dallas", 300, 360, 30, 0, none⟩],
           [⟨2, 5, .confirmed, true,
             some ⟨5, "E", "Dallas", 400, 460, 30, 0, none⟩⟩]⟩ 2 4
        = [] := by decide

/-- **C10.** The null-training guards the claim describes are unreachable:
with a confirmed registration whose training reference is absent in the
store, the invocation raises `TypeError` before any rule runs, so no rule
ever reaches — let alone skips — that registration.  The guards do exist in
the (unreachable) loop bodies, which map the registration to no finding and
exclude it from the same-day selection. -/
theorem C10_code_bug_type_error :
    detect_schedule_conflicts
        ⟨[⟨1, "A", "NYC", 600, 660, 30, 0, none⟩],
         [⟨1, 2, .confirmed, true, none⟩,
          ⟨1, 3, .confirmed, true,
            some ⟨3, "C", "NYC", 200, 260, 30, 0, none⟩⟩]⟩ 1 1
        = .error (kw_type_error "training_id")
      ∧ overlap_body 1 ⟨1, "A", "NYC", 600, 660, 30, 0, none⟩
          ⟨1, 2, .confirmed, true, none⟩ = none
      ∧ location_body ⟨1, "A", "NYC", 600, 660, 30, 0, none⟩
          ⟨1, 2, .confirmed, true, none⟩ = none
      ∧ same_day_filter ⟨1, "A", "NYC", 600, 660, 30, 0, none⟩
          [⟨1, 2, .confirmed, true, none⟩] = [] := by decide
